import Mathlib

/-!
# Verification of the pragati psychometric scoring and profile engine

A shallow embedding of the scoring, aggregation, profile-synthesis and
validation-context code of the repository
(`app/psychometric_evaluator.py`, `app/mentor_evaluator.py`,
`app/user_profile_manager.py`), together with theorems settling the
specification claims about it.

Modelling conventions:

* Python floats are modelled as exact rationals (`ℚ`); Python `round(x, n)`
  is banker's rounding, modelled by `roundHalfEven` on the exact value.
* Python dicts that the code iterates in insertion order are modelled as
  association lists (`List (String × _)`); `dict.get` is `List.find?` on the
  key plus a default.
* The LLM collaborator (the "qualitative analyzer") is an external input: it
  is passed to the evaluator as an `Option` — `Option.some a` is a successful
  `analyze` call returning `a`, `Option.none` is the collaborator throwing,
  in which case the code substitutes its hard-coded fallback record.
* Wall-clock reads (`datetime.now().isoformat()`) are passed in as explicit
  `String` arguments.
* MongoDB is modelled as an explicit store (`DB`) with one map per
  collection; `find_one`/`insert_one`/`update_one` on the `user_id` key
  become lookups and functional updates.
-/

namespace Pragati

/-! ## Rounding helpers (Python `round` / `%.2f`) -/

/-- Round a rational to the nearest integer, ties to even — the rounding
Python's `round` applies to the exact value. -/
def roundHalfEven (x : ℚ) : ℤ :=
  let f := ⌊x⌋
  let r := x - f
  if r < 1/2 then f
  else if 1/2 < r then f + 1
  else if f % 2 = 0 then f else f + 1

/-- Python `round(x, 2)`. -/
def round2 (x : ℚ) : ℚ := (roundHalfEven (x * 100) : ℚ) / 100

/-- Python `round(x, 1)`. -/
def round1 (x : ℚ) : ℚ := (roundHalfEven (x * 10) : ℚ) / 10

/-- Python `str.strip()` (whitespace stripping from both ends). -/
def pyStrip (s : String) : String :=
  String.mk (((s.data.dropWhile Char.isWhitespace).reverse.dropWhile
    Char.isWhitespace).reverse)

/-- Python `"%.2f" % x` — two-decimal fixed-point formatting, used by the
mentor fallback summary string. -/
def fmt2 (x : ℚ) : String :=
  let n := roundHalfEven (x * 100)
  let s := if n < 0 then "-" else ""
  let m := n.natAbs
  s ++ toString (m / 100) ++ "." ++
    (if m % 100 < 10 then "0" else "") ++ toString (m % 100)

/-! ## Data model (spec section 3, as read off the source) -/

/-- An answer option of a question (`options[i]` in the generated JSON):
id, display text, and the per-dimension score profile. -/
structure QOption where
  option_id : String
  text : String
  score_profile : List (String × ℚ)
deriving Repr, DecidableEq

/-- A generated question. -/
structure Question where
  question_id : String
  question_text : String
  dimension : String
  options : List QOption
deriving Repr, DecidableEq

/-- The assessment (`questions_data`) handed to `evaluate_responses`.
Only the fields the evaluator reads are modelled. -/
structure QuestionsData where
  assessment_id : String
  questions : List Question
deriving Repr, DecidableEq

/-! ## Dimension registries

`PsychometricEvaluator.DIMENSIONS` and `MentorEvaluator.DIMENSIONS`.
Display names and descriptions are omitted (the scoring code only reads the
keys, and for mentors the `"weight"` entries). -/

/-- Keys of `PsychometricEvaluator.DIMENSIONS` (entrepreneur registry);
entrepreneur dimensions carry no explicit weight (implicitly `1.0`). -/
def entDimensionKeys : List String :=
  ["leadership", "risk_tolerance", "resilience", "innovation",
   "decision_making", "emotional_intelligence", "persistence",
   "strategic_thinking", "communication", "problem_solving"]

/-- `MentorEvaluator.DIMENSIONS` as (key, weight) pairs, in source order. -/
def mentorDimensions : List (String × ℚ) :=
  [("coaching_ability", 1.2), ("domain_expertise", 1.1), ("empathy", 1.3),
   ("experience_breadth", 1.0), ("network_strength", 0.9),
   ("feedback_quality", 1.2), ("availability", 1.0), ("communication", 1.1),
   ("adaptability", 1.0), ("accountability", 1.0)]

/-- Keys of the mentor registry. -/
def mentorDimensionKeys : List String := mentorDimensions.map Prod.fst

/-- `self.DIMENSIONS[dim]["weight"]` on the mentor path (the callers only
ever use keys of the registry, for which the `getD 0` default is unused). -/
def mentorWeight (dim : String) : ℚ :=
  ((mentorDimensions.find? (fun p => p.1 = dim)).map Prod.snd).getD 0

/-! ## Response scorer (the shared response loop of
`PsychometricEvaluator.evaluate_responses` and
`MentorEvaluator.evaluate_responses`, lines 214-251 resp. 341-378 — the two
loops are textually identical). -/

/-- One entry of `answered_questions` / `response_details`. -/
structure AnsweredQuestion where
  question_id : String
  question_text : String
  dimension : String
  selected_option : String
  selected_text : String
deriving Repr, DecidableEq

/-- `question_map = {q["question_id"]: q for q in questions}` followed by
`question_map.get(q_id)`: in a Python dict comprehension a duplicated key
keeps the *last* occurrence, hence the lookup on the reversed list. -/
def lookupQuestion (qs : List Question) (qid : String) : Option Question :=
  qs.reverse.find? (fun q => q.question_id = qid)

/-- `len(question_map)` — the number of distinct question ids. -/
def questionMapSize (qs : List Question) : Nat :=
  (qs.map Question.question_id).dedup.length

/-- `next((opt for opt in question.get("options", []) if
opt.get("option_id") == selected_option_id), None)`. -/
def findOption (q : Question) (oid : String) : Option QOption :=
  q.options.find? (fun o => o.option_id = oid)

/-- `if dimension in dimension_scores: dimension_scores[dimension].append(score)` —
append a raw score to the dimension's list when the key is in the registry,
silently drop it otherwise. -/
def appendScore (ds : List (String × List ℚ)) (dim : String) (s : ℚ) :
    List (String × List ℚ) :=
  ds.map (fun p => if p.1 = dim then (p.1, p.2 ++ [s]) else p)

/-- The loop state: per-dimension raw score lists plus the
`answered_questions` accumulator. -/
structure ScoreState where
  dims : List (String × List ℚ)
  answered : List AnsweredQuestion
deriving Repr, DecidableEq

/-- One iteration of `for q_id, selected_option_id in responses.items()`:
unknown question id → skip; unknown option id → skip; otherwise fold the
option's score profile into the raw lists and record the answer details. -/
def stepResponse (qs : List Question) (st : ScoreState) (r : String × String) :
    ScoreState :=
  match lookupQuestion qs r.1 with
  | Option.none => st
  | Option.some q =>
    match findOption q r.2 with
    | Option.none => st
    | Option.some opt =>
      { dims := opt.score_profile.foldl (fun ds p => appendScore ds p.1 p.2) st.dims
        answered := st.answered ++
          [⟨r.1, q.question_text, q.dimension, r.2, opt.text⟩] }

/-- The whole response loop, starting from
`dimension_scores = {dim: [] for dim in self.DIMENSIONS.keys()}` and
`answered_questions = []`. `responses` is the items of the response dict in
insertion order (a dict guarantees one option id per question id). -/
def collectScores (dimKeys : List String) (qs : List Question)
    (responses : List (String × String)) : ScoreState :=
  responses.foldl (stepResponse qs) ⟨dimKeys.map (fun d => (d, [])), []⟩

/-! ## Aggregator -/

/-- Entrepreneur path (`psychometric_evaluator.py` lines 253-258):
`round(sum(scores)/len(scores), 2) if scores else 0.0` per dimension. -/
def entDimensionAverages (dims : List (String × List ℚ)) :
    List (String × ℚ) :=
  dims.map (fun p =>
    (p.1, if p.2 = [] then 0 else round2 (p.2.sum / p.2.length)))

/-- Entrepreneur overall score (lines 260-264):
`round(sum(dimension_averages.values()) / len(dimension_averages), 2)
if dimension_averages else 0.0`. -/
def entOverallScore (avgs : List (String × ℚ)) : ℚ :=
  if avgs = [] then 0 else round2 ((avgs.map Prod.snd).sum / avgs.length)

/-- Mentor path (`mentor_evaluator.py` lines 380-388):
`round(avg_score * weight, 2)` when the raw list is non-empty, else `0.0`. -/
def mentorDimensionAverages (dims : List (String × List ℚ)) :
    List (String × ℚ) :=
  dims.map (fun p =>
    (p.1, if p.2 = [] then 0
          else round2 ((p.2.sum / p.2.length) * mentorWeight p.1)))

/-- `total_weight = sum(self.DIMENSIONS[dim]["weight"] for dim in
dimension_averages.keys())` (line 391). -/
def mentorTotalWeight (avgs : List (String × ℚ)) : ℚ :=
  (avgs.map (fun p => mentorWeight p.1)).sum

/-- Mentor overall score (lines 392-395). -/
def mentorOverallScore (avgs : List (String × ℚ)) : ℚ :=
  if avgs ≠ [] ∧ 0 < mentorTotalWeight avgs then
    round2 ((avgs.map Prod.snd).sum / mentorTotalWeight avgs)
  else 0

/-- `dimension_averages[d]` / result `dimension_scores[d]` — association
lookup with the 0 default never used on registry keys. -/
def lookupScore (scores : List (String × ℚ)) (d : String) : ℚ :=
  ((scores.find? (fun p => p.1 = d)).map Prod.snd).getD 0

/-! ## Qualitative analyzer results and the fallback records -/

/-- The `entrepreneurial_fit` sub-record of an entrepreneur analysis. -/
structure EntFit where
  overall_fit : String
  fit_score : ℚ
  reasoning : String
  ideal_role : String
  ideal_venture_type : String
deriving Repr, DecidableEq

/-- What `_generate_ai_analysis` returns on the entrepreneur path. -/
structure EntAnalysis where
  personality_profile : String
  strengths : List String
  areas_for_development : List String
  entrepreneurial_fit : EntFit
  recommendations : List String
  detailed_insights : List (String × String)
deriving Repr, DecidableEq

/-- The hard-coded fallback of `_generate_ai_analysis`
(`psychometric_evaluator.py` lines 379-409), returned when the analyzer
collaborator throws.  Note the fallback fit category is `"Medium"`.
`dimension_scores.get('overall_score', 0)` always hits the default `0`
(the averages dict is keyed by registry dimensions only). -/
def entFallbackAnalysis (dimension_scores : List (String × ℚ)) : EntAnalysis :=
  { personality_profile :=
      "Assessment indicates an overall score of " ++
      toString (((dimension_scores.find? (fun p => p.1 = "overall_score")).map
        Prod.snd).getD 0) ++ "/10. Further analysis recommended."
    strengths := ["Assessment completed successfully"]
    areas_for_development := ["Review detailed scores for specific insights"]
    entrepreneurial_fit :=
      { overall_fit := "Medium"
        fit_score := 70
        reasoning := "Assessment completed. Individual results vary by dimension."
        ideal_role := "Entrepreneur"
        ideal_venture_type := "Versatile" }
    recommendations :=
      ["Review dimension scores in detail",
       "Focus on top 2-3 development areas",
       "Consider coaching for targeted growth"]
    detailed_insights :=
      [("leadership_style", "Further analysis needed"),
       ("decision_making_pattern", "Review response patterns"),
       ("stress_response", "Self-assessment recommended"),
       ("growth_potential", "Moderate to high"),
       ("team_dynamics", "Context-dependent"),
       ("unique_qualities", "Individual strengths identified")] }

/-- `_generate_ai_analysis`: the analyzer collaborator either returns an
analysis or throws, in which case the code returns the fallback record
instead of propagating the exception. -/
def generate_ai_analysis (analyzer : Option EntAnalysis)
    (dimension_scores : List (String × ℚ)) : EntAnalysis :=
  match analyzer with
  | Option.some a => a
  | Option.none => entFallbackAnalysis dimension_scores

/-- The `mentoring_fit` sub-record of a mentor analysis. -/
structure MentorFit where
  overall_fit : String
  fit_score : ℚ
  reasoning : String
  mentoring_readiness : String
deriving Repr, DecidableEq

/-- The `ideal_mentee_profile` sub-record. -/
structure IdealMenteeProfile where
  experience_level : String
  personality_fit : String
  challenge_areas : String
  industry_fit : String
deriving Repr, DecidableEq

/-- What `_generate_mentor_analysis` returns on the mentor path. -/
structure MentorAnalysis where
  mentor_profile_summary : String
  strengths : List String
  development_areas : List String
  mentoring_fit : MentorFit
  teaching_style : String
  ideal_mentee_profile : IdealMenteeProfile
  mentoring_capacity : String
  expertise_domains : List String
  recommendations : List String
  detailed_insights : List (String × String)
deriving Repr, DecidableEq

/-- The hard-coded fallback of `_generate_mentor_analysis`
(`mentor_evaluator.py` lines 536-575).  The fallback fit category is
`"Moderate"`; its summary interpolates the pre-LLM weighted overall score
(lines 469-470), which is in scope when the analyzer call throws. -/
def mentorFallbackAnalysis (dimension_scores : List (String × ℚ)) :
    MentorAnalysis :=
  let total_weight := (dimension_scores.map (fun p => mentorWeight p.1)).sum
  let overall_score :=
    if 0 < total_weight then (dimension_scores.map Prod.snd).sum / total_weight
    else 0
  { mentor_profile_summary :=
      "Mentor assessment indicates an overall score of " ++
      fmt2 overall_score ++ "/10. Further analysis recommended."
    strengths := ["Assessment completed successfully"]
    development_areas := ["Review detailed scores for specific insights"]
    mentoring_fit :=
      { overall_fit := "Moderate"
        fit_score := 70
        reasoning := "Assessment completed. Individual results vary by dimension."
        mentoring_readiness := "Needs Development" }
    teaching_style := "Mixed approach"
    ideal_mentee_profile :=
      { experience_level := "Various"
        personality_fit := "Flexible"
        challenge_areas := "General business challenges"
        industry_fit := "Cross-industry" }
    mentoring_capacity := "3-5 mentees"
    expertise_domains := ["To be determined"]
    recommendations :=
      ["Review dimension scores in detail",
       "Clarify time commitment capacity",
       "Identify primary expertise domains"]
    detailed_insights :=
      [("communication_approach", "Further analysis needed"),
       ("feedback_style", "Review response patterns"),
       ("availability_pattern", "Self-assessment recommended"),
       ("network_leverage", "Context-dependent"),
       ("experience_depth", "Moderate"),
       ("empathy_score", "Moderate to high"),
       ("unique_value", "Individual strengths identified")] }

/-- `_generate_mentor_analysis` with the analyzer modelled as an input. -/
def generate_mentor_analysis (analyzer : Option MentorAnalysis)
    (dimension_scores : List (String × ℚ)) : MentorAnalysis :=
  match analyzer with
  | Option.some a => a
  | Option.none => mentorFallbackAnalysis dimension_scores

/-! ## The two evaluators -/

/-- The result dict of `PsychometricEvaluator.evaluate_responses`
(lines 274-292).  `user_name` is absent from the evaluator's own output and
only injected by the HTTP layer, hence the `Option`. -/
structure EntEvalResult where
  assessment_id : String
  evaluated_at : String
  total_questions : Nat
  questions_answered : Nat
  completion_rate : ℚ
  dimension_scores : List (String × ℚ)
  overall_score : ℚ
  strengths : List String
  areas_for_development : List String
  personality_profile : String
  entrepreneurial_fit : EntFit
  recommendations : List String
  detailed_insights : List (String × String)
  response_details : List AnsweredQuestion
  user_name : Option String
deriving Repr, DecidableEq

/-- `PsychometricEvaluator.evaluate_responses`.  An empty response dict
raises `ValueError("No responses provided for evaluation")` before any
scoring; otherwise the quantitative pipeline always succeeds and the
qualitative part falls back on analyzer failure. -/
def entEvaluate (analyzer : Option EntAnalysis) (questions_data : QuestionsData)
    (responses : List (String × String)) (evaluated_at : String) :
    Except String EntEvalResult :=
  if responses = [] then
    Except.error "No responses provided for evaluation"
  else
    let st := collectScores entDimensionKeys questions_data.questions responses
    let dimension_averages := entDimensionAverages st.dims
    let overall_score := entOverallScore dimension_averages
    let analysis := generate_ai_analysis analyzer dimension_averages
    Except.ok
      { assessment_id := questions_data.assessment_id
        evaluated_at := evaluated_at
        total_questions := questionMapSize questions_data.questions
        questions_answered := st.answered.length
        completion_rate :=
          round1 ((st.answered.length : ℚ) /
            (max (questionMapSize questions_data.questions) 1) * 100)
        dimension_scores := dimension_averages
        overall_score := overall_score
        strengths := analysis.strengths
        areas_for_development := analysis.areas_for_development
        personality_profile := analysis.personality_profile
        entrepreneurial_fit := analysis.entrepreneurial_fit
        recommendations := analysis.recommendations
        detailed_insights := analysis.detailed_insights
        response_details := st.answered
        user_name := Option.none }

/-- The result dict of `MentorEvaluator.evaluate_responses`
(lines 406-429). -/
structure MentorEvalResult where
  assessment_id : String
  evaluated_at : String
  total_questions : Nat
  questions_answered : Nat
  completion_rate : ℚ
  dimension_scores : List (String × ℚ)
  overall_mentor_score : ℚ
  mentor_strengths : List String
  development_areas : List String
  mentor_profile_summary : String
  mentoring_fit : MentorFit
  teaching_style : String
  ideal_mentee_profile : IdealMenteeProfile
  mentoring_capacity : String
  expertise_domains : List String
  recommendations : List String
  detailed_insights : List (String × String)
  response_details : List AnsweredQuestion
  user_name : Option String
deriving Repr, DecidableEq

/-- `MentorEvaluator.evaluate_responses`. -/
def mentorEvaluate (analyzer : Option MentorAnalysis)
    (questions_data : QuestionsData) (responses : List (String × String))
    (evaluated_at : String) : Except String MentorEvalResult :=
  if responses = [] then
    Except.error "No responses provided for evaluation"
  else
    let st := collectScores mentorDimensionKeys questions_data.questions responses
    let dimension_averages := mentorDimensionAverages st.dims
    let overall_score := mentorOverallScore dimension_averages
    let analysis := generate_mentor_analysis analyzer dimension_averages
    Except.ok
      { assessment_id := questions_data.assessment_id
        evaluated_at := evaluated_at
        total_questions := questionMapSize questions_data.questions
        questions_answered := st.answered.length
        completion_rate :=
          round1 ((st.answered.length : ℚ) /
            (max (questionMapSize questions_data.questions) 1) * 100)
        dimension_scores := dimension_averages
        overall_mentor_score := overall_score
        mentor_strengths := analysis.strengths
        development_areas := analysis.development_areas
        mentor_profile_summary := analysis.mentor_profile_summary
        mentoring_fit := analysis.mentoring_fit
        teaching_style := analysis.teaching_style
        ideal_mentee_profile := analysis.ideal_mentee_profile
        mentoring_capacity := analysis.mentoring_capacity
        expertise_domains := analysis.expertise_domains
        recommendations := analysis.recommendations
        detailed_insights := analysis.detailed_insights
        response_details := st.answered
        user_name := Option.none }

/-! ## Profile completeness (`UserProfileManager._calculate_completeness`)

`_calculate_completeness` is dict-generic Python: it probes seven literal
keys on whatever evaluation dict it is given.  To embed it faithfully we
give a small Python-value type and map each typed evaluation result onto
the dict the source actually builds. -/

/-- A Python value as far as `_calculate_completeness` can observe it. -/
inductive PyVal where
  | str (s : String)
  | num (q : ℚ)
  | boolean (b : Bool)
  | list (xs : List PyVal)
  | dict (xs : List (String × PyVal))
  | pynone

/-- `evaluation_result.get(field)` (keys in these dicts are distinct, so the
first match is the binding). -/
def pyLookup (d : List (String × PyVal)) (k : String) : Option PyVal :=
  (d.find? (fun p => p.1 = k)).map Prod.snd

/-- The body of the `if value:` check of `_calculate_completeness`: a field
counts as filled when it is a non-empty list/dict, or a string that is
non-empty after `strip()`; truthy values of any other type do not count. -/
def isFilled : PyVal → Bool
  | PyVal.list xs => decide (0 < xs.length)
  | PyVal.dict xs => decide (0 < xs.length)
  | PyVal.str s => !(pyStrip s == "")
  | _ => false

/-- `fields_to_check` of `_calculate_completeness`
(`user_profile_manager.py` lines 457-465) — note these are the
*entrepreneur* key names, and the same list is probed for mentor
evaluations too. -/
def completeness_fields : List String :=
  ["dimension_scores", "entrepreneurial_fit", "strengths",
   "areas_for_development", "personality_profile", "detailed_insights",
   "recommendations"]

/-- The `filled_fields` counter of `_calculate_completeness`. -/
def filledCount (evaluation_result : List (String × PyVal)) : Nat :=
  completeness_fields.countP (fun f =>
    match pyLookup evaluation_result f with
    | Option.some v => isFilled v
    | Option.none => false)

/-- `UserProfileManager._calculate_completeness` (lines 443-477):
`round(filled_fields / total_fields * 100, 1)`. -/
def calculate_completeness (evaluation_result : List (String × PyVal)) : ℚ :=
  round1 ((filledCount evaluation_result : ℚ) /
    (completeness_fields.length : ℚ) * 100)

/-- View a `(String × String)` insights dict as a Python dict value. -/
def insightsVal (xs : List (String × String)) : PyVal :=
  PyVal.dict (xs.map (fun p => (p.1, PyVal.str p.2)))

/-- View an `EntFit` record as the Python dict the analysis JSON carries. -/
def entFitDict (f : EntFit) : PyVal :=
  PyVal.dict
    [("overall_fit", PyVal.str f.overall_fit),
     ("fit_score", PyVal.num f.fit_score),
     ("reasoning", PyVal.str f.reasoning),
     ("ideal_role", PyVal.str f.ideal_role),
     ("ideal_venture_type", PyVal.str f.ideal_venture_type)]

/-- View a `MentorFit` record as a Python dict. -/
def mentorFitDict (f : MentorFit) : PyVal :=
  PyVal.dict
    [("overall_fit", PyVal.str f.overall_fit),
     ("fit_score", PyVal.num f.fit_score),
     ("reasoning", PyVal.str f.reasoning),
     ("mentoring_readiness", PyVal.str f.mentoring_readiness)]

/-- View an `IdealMenteeProfile` record as a Python dict. -/
def menteeProfileDict (m : IdealMenteeProfile) : PyVal :=
  PyVal.dict
    [("experience_level", PyVal.str m.experience_level),
     ("personality_fit", PyVal.str m.personality_fit),
     ("challenge_areas", PyVal.str m.challenge_areas),
     ("industry_fit", PyVal.str m.industry_fit)]

/-- View an answered-question record as a Python dict. -/
def answeredDict (a : AnsweredQuestion) : PyVal :=
  PyVal.dict
    [("question_id", PyVal.str a.question_id),
     ("question_text", PyVal.str a.question_text),
     ("dimension", PyVal.str a.dimension),
     ("selected_option", PyVal.str a.selected_option),
     ("selected_text", PyVal.str a.selected_text)]

/-- The entrepreneur evaluation result as the dict
`PsychometricEvaluator.evaluate_responses` builds (lines 274-292), which is
what `_calculate_completeness` probes. -/
def entEvalDict (r : EntEvalResult) : List (String × PyVal) :=
  [("assessment_id", PyVal.str r.assessment_id),
   ("evaluated_at", PyVal.str r.evaluated_at),
   ("schema_version", PyVal.str "1.0"),
   ("total_questions", PyVal.num r.total_questions),
   ("questions_answered", PyVal.num r.questions_answered),
   ("completion_rate", PyVal.num r.completion_rate),
   ("dimension_scores",
     PyVal.dict (r.dimension_scores.map (fun p => (p.1, PyVal.num p.2)))),
   ("overall_score", PyVal.num r.overall_score),
   ("strengths", PyVal.list (r.strengths.map PyVal.str)),
   ("areas_for_development",
     PyVal.list (r.areas_for_development.map PyVal.str)),
   ("personality_profile", PyVal.str r.personality_profile),
   ("entrepreneurial_fit", entFitDict r.entrepreneurial_fit),
   ("recommendations", PyVal.list (r.recommendations.map PyVal.str)),
   ("detailed_insights", insightsVal r.detailed_insights),
   ("response_details", PyVal.list (r.response_details.map answeredDict))]

/-- The mentor evaluation result as the dict
`MentorEvaluator.evaluate_responses` builds (lines 406-429).  None of the
entrepreneur-vocabulary keys (`entrepreneurial_fit`, `strengths`,
`areas_for_development`, `personality_profile`) occur in it. -/
def mentorEvalDict (r : MentorEvalResult) : List (String × PyVal) :=
  [("assessment_id", PyVal.str r.assessment_id),
   ("assessment_type", PyVal.str "mentor"),
   ("evaluated_at", PyVal.str r.evaluated_at),
   ("schema_version", PyVal.str "1.0"),
   ("total_questions", PyVal.num r.total_questions),
   ("questions_answered", PyVal.num r.questions_answered),
   ("completion_rate", PyVal.num r.completion_rate),
   ("dimension_scores",
     PyVal.dict (r.dimension_scores.map (fun p => (p.1, PyVal.num p.2)))),
   ("overall_mentor_score", PyVal.num r.overall_mentor_score),
   ("mentor_strengths", PyVal.list (r.mentor_strengths.map PyVal.str)),
   ("development_areas", PyVal.list (r.development_areas.map PyVal.str)),
   ("mentor_profile_summary", PyVal.str r.mentor_profile_summary),
   ("mentoring_fit", mentorFitDict r.mentoring_fit),
   ("teaching_style", PyVal.str r.teaching_style),
   ("ideal_mentee_profile", menteeProfileDict r.ideal_mentee_profile),
   ("mentoring_capacity", PyVal.str r.mentoring_capacity),
   ("expertise_domains", PyVal.list (r.expertise_domains.map PyVal.str)),
   ("recommendations", PyVal.list (r.recommendations.map PyVal.str)),
   ("detailed_insights", insightsVal r.detailed_insights),
   ("response_details", PyVal.list (r.response_details.map answeredDict))]

/-! ## Profile synthesis (`UserProfileManager`) -/

/-- An entry of `validation_history`, as written by
`add_validation_to_history`. -/
structure ValidationEntry where
  idea_name : String
  report_id : String
  validated_at : String
  overall_score : ℚ
  validation_outcome : String
deriving Repr, DecidableEq

/-- The dimension → validation-focus-area table of
`_determine_focus_areas` (lines 397-408). -/
def dimension_to_focus : List (String × String) :=
  [("leadership", "Team & Leadership Evaluation"),
   ("risk_tolerance", "Risk Assessment & Mitigation"),
   ("resilience", "Sustainability & Long-term Viability"),
   ("innovation", "Innovation & Differentiation"),
   ("decision_making", "Business Model & Strategy"),
   ("emotional_intelligence", "Stakeholder Management"),
   ("persistence", "Execution Capability"),
   ("strategic_thinking", "Market Strategy & Positioning"),
   ("communication", "Go-to-Market & Sales"),
   ("problem_solving", "Problem-Solution Fit")]

/-- `UserProfileManager._determine_focus_areas` (lines 384-422): weak
dimensions (score < 5) map to their focus areas; if none are weak, the top
3 dimensions by score (descending, stable) are used instead. -/
def determine_focus_areas (dimension_scores : List (String × ℚ)) :
    List String :=
  let focus_areas := dimension_scores.filterMap (fun p =>
    if p.2 < 5 then (dimension_to_focus.find? (fun m => m.1 = p.1)).map Prod.snd
    else Option.none)
  if focus_areas ≠ [] then focus_areas
  else
    let sorted_dims := dimension_scores.mergeSort (fun a b => decide (b.2 ≤ a.2))
    (sorted_dims.take 3).filterMap (fun p =>
      (dimension_to_focus.find? (fun m => m.1 = p.1)).map Prod.snd)

/-- `UserProfileManager._categorize_risk_tolerance` (lines 424-441). -/
def categorize_risk_tolerance (risk_score : ℚ) : String :=
  if 8 ≤ risk_score then "Very High"
  else if 6 ≤ risk_score then "High"
  else if 4 ≤ risk_score then "Medium"
  else "Low"

/-- The entrepreneur profile document
(`_create_entrepreneur_profile`, lines 75-116). -/
structure EntProfile where
  user_id : String
  profile_type : String
  user_name : String
  created_at : String
  last_updated : String
  psychometric_scores : List (String × ℚ)
  overall_psychometric_score : ℚ
  entrepreneurial_fit : String
  fit_score : ℚ
  ideal_role : String
  ideal_venture_type : String
  top_strengths : List String
  development_areas : List String
  personality_profile : String
  validation_focus_areas : List String
  risk_tolerance_level : String
  detailed_insights : List (String × String)
  recommendations : List String
  profile_completeness : ℚ
  profile_version : String
  evaluation_id : Option String
  assessment_date : String
  validation_history : List ValidationEntry
deriving Repr, DecidableEq

/-- The mentor profile document (`_create_mentor_profile`, lines 168-217).
Mentoring-history entries are opaque documents to this code (only ever
preserved wholesale), modelled as `PyVal`s. -/
structure MentorProfile where
  user_id : String
  profile_type : String
  user_name : String
  created_at : String
  last_updated : String
  psychometric_scores : List (String × ℚ)
  overall_mentor_score : ℚ
  mentoring_fit : String
  fit_score : ℚ
  mentoring_readiness : String
  teaching_style : String
  mentoring_capacity : String
  expertise_domains : List String
  top_strengths : List String
  development_areas : List String
  mentor_profile_summary : String
  ideal_mentee_profile : IdealMenteeProfile
  mentee_experience_level : String
  mentee_personality_fit : String
  challenge_areas : String
  industry_fit : String
  detailed_insights : List (String × String)
  recommendations : List String
  profile_completeness : ℚ
  profile_version : String
  evaluation_id : Option String
  assessment_date : String
  mentoring_history : List PyVal

/-- The persistence store: the `entrepreneur_profiles` and
`mentor_profiles` collections, keyed by `user_id`. -/
structure DB where
  entrepreneur_profiles : String → Option EntProfile
  mentor_profiles : String → Option MentorProfile

/-- `detailed_insights.get(key, '')`. -/
def insightGet (xs : List (String × String)) (k : String) : String :=
  ((xs.find? (fun p => p.1 = k)).map Prod.snd).getD ""

/-- `UserProfileManager._create_entrepreneur_profile` (lines 60-147):
build the fresh profile (both timestamps = now), then — update branch —
copy `created_at` and `validation_history` over from the existing record
and upsert, or — create branch — start with an empty history and insert.
Returns the profile handed back to the caller and the new store. -/
def create_entrepreneur_profile (db : DB) (user_id : String)
    (ev : EntEvalResult) (now : String) : EntProfile × DB :=
  let profile : EntProfile :=
    { user_id := user_id
      profile_type := "entrepreneur"
      user_name := ev.user_name.getD "Unknown"
      created_at := now
      last_updated := now
      psychometric_scores := ev.dimension_scores
      overall_psychometric_score := ev.overall_score
      entrepreneurial_fit := ev.entrepreneurial_fit.overall_fit
      fit_score := ev.entrepreneurial_fit.fit_score
      ideal_role := ev.entrepreneurial_fit.ideal_role
      ideal_venture_type := ev.entrepreneurial_fit.ideal_venture_type
      top_strengths := ev.strengths.take 5
      development_areas := ev.areas_for_development.take 5
      personality_profile := ev.personality_profile
      validation_focus_areas := determine_focus_areas ev.dimension_scores
      risk_tolerance_level := categorize_risk_tolerance
        (((ev.dimension_scores.find? (fun p => p.1 = "risk_tolerance")).map
          Prod.snd).getD 5)
      detailed_insights := ev.detailed_insights
      recommendations := ev.recommendations
      profile_completeness := calculate_completeness (entEvalDict ev)
      profile_version := "1.0"
      evaluation_id := Option.none
      assessment_date := ev.evaluated_at
      validation_history := [] }
  match db.entrepreneur_profiles user_id with
  | Option.some existing =>
    let p := { profile with
      created_at := existing.created_at
      validation_history := existing.validation_history }
    (p, { db with entrepreneur_profiles := fun uid =>
            if uid = user_id then Option.some p
            else db.entrepreneur_profiles uid })
  | Option.none =>
    (profile, { db with entrepreneur_profiles := fun uid =>
                  if uid = user_id then Option.some profile
                  else db.entrepreneur_profiles uid })

/-- `UserProfileManager._create_mentor_profile` (lines 149-250). -/
def create_mentor_profile (db : DB) (user_id : String)
    (ev : MentorEvalResult) (now : String) : MentorProfile × DB :=
  let profile : MentorProfile :=
    { user_id := user_id
      profile_type := "mentor"
      user_name := ev.user_name.getD "Unknown"
      created_at := now
      last_updated := now
      psychometric_scores := ev.dimension_scores
      overall_mentor_score := ev.overall_mentor_score
      mentoring_fit := ev.mentoring_fit.overall_fit
      fit_score := ev.mentoring_fit.fit_score
      mentoring_readiness := ev.mentoring_fit.mentoring_readiness
      teaching_style := ev.teaching_style
      mentoring_capacity := ev.mentoring_capacity
      expertise_domains := ev.expertise_domains
      top_strengths := ev.mentor_strengths.take 5
      development_areas := ev.development_areas.take 5
      mentor_profile_summary := ev.mentor_profile_summary
      ideal_mentee_profile := ev.ideal_mentee_profile
      mentee_experience_level := ev.ideal_mentee_profile.experience_level
      mentee_personality_fit := ev.ideal_mentee_profile.personality_fit
      challenge_areas := ev.ideal_mentee_profile.challenge_areas
      industry_fit := ev.ideal_mentee_profile.industry_fit
      detailed_insights := ev.detailed_insights
      recommendations := ev.recommendations
      profile_completeness := calculate_completeness (mentorEvalDict ev)
      profile_version := "1.0"
      evaluation_id := Option.none
      assessment_date := ev.evaluated_at
      mentoring_history := [] }
  match db.mentor_profiles user_id with
  | Option.some existing =>
    let p := { profile with
      created_at := existing.created_at
      mentoring_history := existing.mentoring_history }
    (p, { db with mentor_profiles := fun uid =>
            if uid = user_id then Option.some p
            else db.mentor_profiles uid })
  | Option.none =>
    (profile, { db with mentor_profiles := fun uid =>
                  if uid = user_id then Option.some profile
                  else db.mentor_profiles uid })

/-- `get_profile(user_id, user_type='entrepreneur')` — a lookup in the
`entrepreneur_profiles` collection, `None` when absent. -/
def get_profile_entrepreneur (db : DB) (user_id : String) :
    Option EntProfile :=
  db.entrepreneur_profiles user_id

/-- Python `history[-3:]`. -/
def takeLast (xs : List α) (n : Nat) : List α := xs.drop (xs.length - n)

/-- `UserProfileManager.get_personalized_validation_context`
(lines 322-382): the "no profile" sentinel dict when no entrepreneur
profile is stored, otherwise the personalized context dict. -/
def get_personalized_validation_context (db : DB) (user_id : String) :
    List (String × PyVal) :=
  match get_profile_entrepreneur db user_id with
  | Option.none =>
    [("has_profile", PyVal.boolean false),
     ("message", PyVal.str
       "No psychometric profile available. Standard validation will be performed.")]
  | Option.some profile =>
    [("has_profile", PyVal.boolean true),
     ("user_name", PyVal.str profile.user_name),
     ("entrepreneurial_fit", PyVal.str profile.entrepreneurial_fit),
     ("fit_score", PyVal.num profile.fit_score),
     ("ideal_role", PyVal.str profile.ideal_role),
     ("strengths", PyVal.list (profile.top_strengths.map PyVal.str)),
     ("weak_areas", PyVal.list (profile.development_areas.map PyVal.str)),
     ("focus_areas", PyVal.list (profile.validation_focus_areas.map PyVal.str)),
     ("risk_tolerance", PyVal.str profile.risk_tolerance_level),
     ("psychometric_scores",
       PyVal.dict (profile.psychometric_scores.map (fun p => (p.1, PyVal.num p.2)))),
     ("personality_summary", PyVal.str profile.personality_profile),
     ("leadership_style",
       PyVal.str (insightGet profile.detailed_insights "leadership_style")),
     ("decision_making_pattern",
       PyVal.str (insightGet profile.detailed_insights "decision_making_pattern")),
     ("validation_count", PyVal.num profile.validation_history.length),
     ("previous_ideas", PyVal.list ((takeLast profile.validation_history 3).map
       (fun v => PyVal.str v.idea_name)))]

/-! ## Derived quantities used in claim statements -/

/-- The raw score list the response scorer accumulates for dimension `d`. -/
def rawScores (dimKeys : List String) (qd : QuestionsData)
    (rs : List (String × String)) (d : String) : List ℚ :=
  (((collectScores dimKeys qd.questions rs).dims.find?
    (fun p => p.1 = d)).map Prod.snd).getD []

/-- The entrepreneur dimension averages an evaluate call computes. -/
def entAverages (qd : QuestionsData) (rs : List (String × String)) :
    List (String × ℚ) :=
  entDimensionAverages (collectScores entDimensionKeys qd.questions rs).dims

/-- The mentor weighted dimension averages an evaluate call computes. -/
def mentorAverages (qd : QuestionsData) (rs : List (String × String)) :
    List (String × ℚ) :=
  mentorDimensionAverages (collectScores mentorDimensionKeys qd.questions rs).dims

/-- Number of validly answered responses of an evaluate call. -/
def answeredCount (dimKeys : List String) (qd : QuestionsData)
    (rs : List (String × String)) : Nat :=
  (collectScores dimKeys qd.questions rs).answered.length

/-- Sum of the registry weights on the entrepreneur side: every
entrepreneur dimension implicitly weighs `1.0`. -/
def entRegistryWeightSum : ℚ := (entDimensionKeys.map (fun _ => (1 : ℚ))).sum

/-- Sum of the registry weights on the mentor side. -/
def mentorRegistryWeightSum : ℚ := (mentorDimensions.map Prod.snd).sum

/-- Modelled from the spec: the claimed 7-item completeness checklist read
against an *entrepreneur* evaluation result — each flag is "the
corresponding field is a non-empty string or a non-empty
sequence/mapping".  (The fit record always carries its five sub-fields, so
its flag is constantly `true`.) -/
def entChecklistFlags (r : EntEvalResult) : List Bool :=
  [decide (r.dimension_scores ≠ []), true, decide (r.strengths ≠ []),
   decide (r.areas_for_development ≠ []),
   decide (pyStrip r.personality_profile ≠ ""),
   decide (r.detailed_insights ≠ []), decide (r.recommendations ≠ [])]

/-- Modelled from the spec: the claimed completeness percentage of an
entrepreneur evaluation result. -/
def claimedEntCompleteness (r : EntEvalResult) : ℚ :=
  round1 (((entChecklistFlags r).countP (fun b => b) : ℚ) / 7 * 100)

/-- Modelled from the spec: the claimed 7-item checklist read against a
*mentor* evaluation result, each checklist item mapped to the mentor
vocabulary (fit classification ↦ `mentoring_fit`, strengths ↦
`mentor_strengths`, development areas ↦ `development_areas`, narrative
summary ↦ `mentor_profile_summary`). -/
def mentorChecklistFlags (r : MentorEvalResult) : List Bool :=
  [decide (r.dimension_scores ≠ []), true, decide (r.mentor_strengths ≠ []),
   decide (r.development_areas ≠ []),
   decide (pyStrip r.mentor_profile_summary ≠ ""),
   decide (r.detailed_insights ≠ []), decide (r.recommendations ≠ [])]

/-- Modelled from the spec: the claimed completeness percentage of a
mentor evaluation result. -/
def claimedMentorCompleteness (r : MentorEvalResult) : ℚ :=
  round1 (((mentorChecklistFlags r).countP (fun b => b) : ℚ) / 7 * 100)

/-- What the code can actually observe of a mentor evaluation result
through its entrepreneur-keyed checklist: only `dimension_scores`,
`detailed_insights` and `recommendations` are keys of the mentor result
dict. -/
def mentorCodeFlags (r : MentorEvalResult) : List Bool :=
  [decide (r.dimension_scores ≠ []), decide (r.detailed_insights ≠ []),
   decide (r.recommendations ≠ [])]

/-! ## Concrete demonstration inputs (used by counterexamples and
hypothesis witnesses) -/

/-- A small concrete entrepreneur assessment (2 questions). -/
def demoEntAssessment : QuestionsData :=
  ⟨"assess_demo",
   [⟨"q1", "When facing a critical decision you typically...", "leadership",
     [⟨"A", "Decide on available data", [("leadership", 8)]⟩,
      ⟨"B", "Build consensus first", [("leadership", 4)]⟩]⟩,
    ⟨"q2", "Your appetite for risk is...", "risk_tolerance",
     [⟨"A", "Take the calculated bet", [("risk_tolerance", 6)]⟩,
      ⟨"B", "Hedge everything", [("risk_tolerance", 2)]⟩]⟩]⟩

/-- A small concrete mentor assessment (1 question, empathy-scored). -/
def demoMentorAssessment : QuestionsData :=
  ⟨"mentor_assess_demo",
   [⟨"m1", "A mentee is stuck; your first move is to...", "empathy",
     [⟨"A", "Listen before advising", [("empathy", 10)]⟩]⟩]⟩

/-- A concrete, fully-populated entrepreneur evaluation result. -/
def demoEntEval : EntEvalResult :=
  { assessment_id := "a1"
    evaluated_at := "T1"
    total_questions := 2
    questions_answered := 2
    completion_rate := 100
    dimension_scores := [("leadership", 8), ("risk_tolerance", 6)]
    overall_score := 7
    strengths := ["s1", "s2"]
    areas_for_development := ["d1"]
    personality_profile := "profile text"
    entrepreneurial_fit := ⟨"High", 80, "good", "Founder", "Tech startup"⟩
    recommendations := ["r1"]
    detailed_insights := [("leadership_style", "bold")]
    response_details := []
    user_name := Option.none }

/-- A concrete, fully-populated mentor evaluation result: every field of
the claimed checklist — in mentor vocabulary — is non-empty. -/
def demoMentorEval : MentorEvalResult :=
  { assessment_id := "ma1"
    evaluated_at := "T1"
    total_questions := 1
    questions_answered := 1
    completion_rate := 100
    dimension_scores := [("empathy", 13)]
    overall_mentor_score := 5
    mentor_strengths := ["listens well"]
    development_areas := ["domain depth"]
    mentor_profile_summary := "an attentive mentor"
    mentoring_fit := ⟨"Excellent", 90, "ready", "Ready"⟩
    teaching_style := "Socratic"
    ideal_mentee_profile := ⟨"Early-stage", "curious", "strategy", "SaaS"⟩
    mentoring_capacity := "3-5 mentees"
    expertise_domains := ["SaaS"]
    recommendations := ["mentor more"]
    detailed_insights := [("feedback_style", "direct")]
    response_details := []
    user_name := Option.none }

/-- A stored entrepreneur profile with a non-trivial history. -/
def demoEntProfile : EntProfile :=
  { user_id := "u1"
    profile_type := "entrepreneur"
    user_name := "Alice"
    created_at := "T0"
    last_updated := "T0"
    psychometric_scores := [("leadership", 5)]
    overall_psychometric_score := 5
    entrepreneurial_fit := "Medium"
    fit_score := 50
    ideal_role := "Founder"
    ideal_venture_type := "Tech startup"
    top_strengths := ["old strength"]
    development_areas := ["old area"]
    personality_profile := "old profile"
    validation_focus_areas := []
    risk_tolerance_level := "Medium"
    detailed_insights := []
    recommendations := []
    profile_completeness := 50
    profile_version := "1.0"
    evaluation_id := Option.none
    assessment_date := "T0"
    validation_history := [⟨"idea1", "rep1", "T0v", 7, "validated"⟩] }

/-- A stored mentor profile with a non-trivial history. -/
def demoMentorProfile : MentorProfile :=
  { user_id := "m1"
    profile_type := "mentor"
    user_name := "Bob"
    created_at := "S0"
    last_updated := "S0"
    psychometric_scores := [("empathy", 9)]
    overall_mentor_score := 9
    mentoring_fit := "Good"
    fit_score := 75
    mentoring_readiness := "Ready"
    teaching_style := "Socratic"
    mentoring_capacity := "3-5 mentees"
    expertise_domains := ["SaaS"]
    top_strengths := ["patience"]
    development_areas := ["network"]
    mentor_profile_summary := "seasoned"
    ideal_mentee_profile := ⟨"Early-stage", "curious", "strategy", "SaaS"⟩
    mentee_experience_level := "Early-stage"
    mentee_personality_fit := "curious"
    challenge_areas := "strategy"
    industry_fit := "SaaS"
    detailed_insights := []
    recommendations := []
    profile_completeness := 40
    profile_version := "1.0"
    evaluation_id := Option.none
    assessment_date := "S0"
    mentoring_history := [PyVal.str "engagement1"] }

/-- A store holding `demoEntProfile` under `"u1"` and `demoMentorProfile`
under `"m1"`. -/
def demoDB : DB :=
  ⟨fun uid => if uid = "u1" then Option.some demoEntProfile else Option.none,
   fun uid => if uid = "m1" then Option.some demoMentorProfile else Option.none⟩

/-- The empty store. -/
def emptyDB : DB := ⟨fun _ => Option.none, fun _ => Option.none⟩

/-! ## General lemmas about the embedding -/

theorem roundHalfEven_nonneg (x : ℚ) (hx : 0 ≤ x) : 0 ≤ roundHalfEven x := by
  have hf : 0 ≤ ⌊x⌋ := Int.floor_nonneg.mpr hx
  simp only [roundHalfEven]
  split_ifs <;> omega

theorem roundHalfEven_le (x : ℚ) (B : ℤ) (h : x ≤ B) : roundHalfEven x ≤ B := by
  have hf : ⌊x⌋ ≤ B := by
    have := Int.floor_le_floor h
    simpa using this
  simp only [roundHalfEven]
  split_ifs with h1 h2 h3
  · exact hf
  · rcases lt_or_eq_of_le hf with hlt | heq
    · omega
    · exfalso
      have : (⌊x⌋ : ℚ) = (B : ℚ) := by exact_mod_cast heq
      have hle : x - ⌊x⌋ ≤ 0 := by
        rw [this]
        linarith
      linarith
  · exact hf
  · rcases lt_or_eq_of_le hf with hlt | heq
    · omega
    · exfalso
      have : (⌊x⌋ : ℚ) = (B : ℚ) := by exact_mod_cast heq
      have hle : x - ⌊x⌋ ≤ 0 := by
        rw [this]
        linarith
      linarith

theorem round1_nonneg (x : ℚ) (hx : 0 ≤ x) : 0 ≤ round1 x := by
  unfold round1
  have : (0 : ℚ) ≤ (roundHalfEven (x * 10) : ℚ) := by
    exact_mod_cast roundHalfEven_nonneg (x * 10) (by linarith)
  linarith

theorem round1_le_100 (x : ℚ) (hx : x ≤ 100) : round1 x ≤ 100 := by
  unfold round1
  have h : roundHalfEven (x * 10) ≤ (1000 : ℤ) := by
    apply roundHalfEven_le
    push_cast
    linarith
  have : (roundHalfEven (x * 10) : ℚ) ≤ (1000 : ℚ) := by exact_mod_cast h
  linarith

theorem map_pair_fst (ds : List (String × α)) (g : String → α → β) :
    (ds.map (fun p => (p.1, g p.1 p.2))).map Prod.fst = ds.map Prod.fst := by
  rw [List.map_map]
  rfl

theorem find?_map_pair (ds : List (String × α)) (g : String → α → β)
    (d : String) :
    (ds.map (fun p => (p.1, g p.1 p.2))).find? (fun p => p.1 = d) =
      (ds.find? (fun p => p.1 = d)).map (fun p => (p.1, g p.1 p.2)) := by
  induction ds with
  | nil => rfl
  | cons a l ih =>
    by_cases h : a.1 = d
    · simp [List.find?_cons_of_pos, h]
    · simp only [List.map_cons]
      rw [List.find?_cons_of_neg _ (by simpa using h),
        List.find?_cons_of_neg _ (by simpa using h), ih]

theorem find?_key_eq {ds : List (String × α)} {d : String} {p : String × α}
    (h : ds.find? (fun q => q.1 = d) = Option.some p) : p.1 = d := by
  have := List.find?_some h
  simpa using this

theorem lookupScore_map_pair (ds : List (String × List ℚ))
    (g : String → List ℚ → ℚ) (d : String) :
    lookupScore (ds.map (fun p => (p.1, g p.1 p.2))) d =
      ((ds.find? (fun p => p.1 = d)).map (fun p => g p.1 p.2)).getD 0 := by
  unfold lookupScore
  rw [find?_map_pair]
  cases ds.find? (fun p => p.1 = d) <;> rfl

theorem appendScore_fst (ds : List (String × List ℚ)) (dim : String) (s : ℚ) :
    (appendScore ds dim s).map Prod.fst = ds.map Prod.fst := by
  unfold appendScore
  rw [List.map_map]
  apply List.map_congr_left
  intro a _
  by_cases h : a.1 = dim <;> simp [h]

theorem foldl_appendScore_fst (sp : List (String × ℚ)) :
    ∀ ds : List (String × List ℚ),
      ((sp.foldl (fun ds p => appendScore ds p.1 p.2) ds).map Prod.fst) =
        ds.map Prod.fst := by
  induction sp with
  | nil => intro ds; rfl
  | cons a l ih =>
    intro ds
    rw [List.foldl_cons, ih, appendScore_fst]

theorem stepResponse_dims_fst (qs : List Question) (st : ScoreState)
    (r : String × String) :
    ((stepResponse qs st r).dims).map Prod.fst = st.dims.map Prod.fst := by
  cases hq : lookupQuestion qs r.1 with
  | none => simp [stepResponse, hq]
  | some q =>
    cases ho : findOption q r.2 with
    | none => simp [stepResponse, hq, ho]
    | some opt => simp [stepResponse, hq, ho, foldl_appendScore_fst]

theorem foldl_dims_fst (qs : List Question) :
    ∀ (rs : List (String × String)) (st : ScoreState),
      ((rs.foldl (stepResponse qs) st).dims).map Prod.fst =
        st.dims.map Prod.fst := by
  intro rs
  induction rs with
  | nil => intro st; rfl
  | cons r rs ih =>
    intro st
    rw [List.foldl_cons, ih, stepResponse_dims_fst]

theorem collectScores_fst (k : List String) (qs : List Question)
    (rs : List (String × String)) :
    ((collectScores k qs rs).dims).map Prod.fst = k := by
  unfold collectScores
  rw [foldl_dims_fst]
  simp only [List.map_map]
  exact List.map_id k

theorem stepResponse_answered (qs : List Question) (st : ScoreState)
    (r : String × String) :
    (stepResponse qs st r).answered = st.answered ∨
      ∃ e : AnsweredQuestion,
        (stepResponse qs st r).answered = st.answered ++ [e] ∧
        e.question_id = r.1 ∧ r.1 ∈ qs.map Question.question_id := by
  cases hq : lookupQuestion qs r.1 with
  | none => left; simp [stepResponse, hq]
  | some q =>
    cases ho : findOption q r.2 with
    | none => left; simp [stepResponse, hq, ho]
    | some opt =>
      right
      refine ⟨⟨r.1, q.question_text, q.dimension, r.2, opt.text⟩,
        by simp [stepResponse, hq, ho], rfl, ?_⟩
      have h1 : q ∈ qs := by
        have := List.mem_of_find?_eq_some hq
        simpa using this
      have h2 : q.question_id = r.1 := by
        have := List.find?_some hq
        simpa using this
      rw [← h2]
      exact List.mem_map_of_mem _ h1

theorem foldl_answered_ids (qs : List Question) :
    ∀ (rs : List (String × String)) (st : ScoreState),
      ∃ l : List String,
        ((rs.foldl (stepResponse qs) st).answered.map
          AnsweredQuestion.question_id) =
          st.answered.map AnsweredQuestion.question_id ++ l ∧
        l.Sublist (rs.map Prod.fst) ∧
        ∀ x ∈ l, x ∈ qs.map Question.question_id := by
  intro rs
  induction rs with
  | nil =>
    intro st
    exact ⟨[], by simp, by simp, by simp⟩
  | cons r rs ih =>
    intro st
    rw [List.foldl_cons]
    rcases stepResponse_answered qs st r with hst | ⟨e, hst, he, hmem⟩
    · obtain ⟨l, h1, h2, h3⟩ := ih (stepResponse qs st r)
      refine ⟨l, by rw [h1, hst], ?_, h3⟩
      rw [List.map_cons]
      exact h2.trans (List.sublist_cons_self _ _)
    · obtain ⟨l, h1, h2, h3⟩ := ih (stepResponse qs st r)
      refine ⟨e.question_id :: l, ?_, ?_, ?_⟩
      · rw [h1, hst]
        simp
      · rw [List.map_cons, he]
        exact h2.cons₂ r.1
      · intro x hx
        rcases List.mem_cons.mp hx with hx | hx
        · rw [hx, he]; exact hmem
        · exact h3 x hx

theorem answered_le_mapSize (k : List String) (qs : List Question)
    (rs : List (String × String)) (hnd : (rs.map Prod.fst).Nodup) :
    (collectScores k qs rs).answered.length ≤ questionMapSize qs := by
  obtain ⟨l, h1, h2, h3⟩ :=
    foldl_answered_ids qs rs ⟨k.map (fun d => (d, [])), []⟩
  have hlen : (collectScores k qs rs).answered.length = l.length := by
    have := congrArg List.length h1
    simpa [collectScores] using this
  rw [hlen, questionMapSize]
  have hlnd : l.Nodup := h2.nodup hnd
  have hsub : l ⊆ (qs.map Question.question_id).dedup := by
    intro x hx
    exact List.mem_dedup.mpr (h3 x hx)
  exact (List.subperm_of_subset hlnd hsub).length_le

theorem isFilled_dict_map [DecidableEq α] (l : List α)
    (f : α → String × PyVal) :
    isFilled (PyVal.dict (l.map f)) = decide (l ≠ []) := by
  cases l <;> simp [isFilled]

theorem isFilled_list_map [DecidableEq α] (l : List α) (f : α → PyVal) :
    isFilled (PyVal.list (l.map f)) = decide (l ≠ []) := by
  cases l <;> simp [isFilled]

theorem isFilled_str_eq (s : String) :
    isFilled (PyVal.str s) = decide (pyStrip s ≠ "") := by
  by_cases h : pyStrip s = "" <;> simp [isFilled, h]

theorem isFilled_insightsVal (xs : List (String × String)) :
    isFilled (insightsVal xs) = decide (xs ≠ []) := by
  cases xs <;> simp [insightsVal, isFilled]

theorem isFilled_entFitDict (f : EntFit) : isFilled (entFitDict f) = true := rfl

theorem countP_skip_falses (a b c : Bool) :
    ([a, false, false, false, false, b, c].countP (fun x => x)) =
      ([a, b, c].countP (fun x => x)) := by
  cases a <;> cases b <;> cases c <;> rfl

theorem completeness_entEvalDict (r : EntEvalResult) :
    calculate_completeness (entEvalDict r) = claimedEntCompleteness r := by
  have hmap : completeness_fields.map (fun f =>
      match pyLookup (entEvalDict r) f with
      | Option.some v => isFilled v
      | Option.none => false) = entChecklistFlags r := by
    show [isFilled (PyVal.dict (r.dimension_scores.map
            (fun p => (p.1, PyVal.num p.2)))),
          isFilled (entFitDict r.entrepreneurial_fit),
          isFilled (PyVal.list (r.strengths.map PyVal.str)),
          isFilled (PyVal.list (r.areas_for_development.map PyVal.str)),
          isFilled (PyVal.str r.personality_profile),
          isFilled (insightsVal r.detailed_insights),
          isFilled (PyVal.list (r.recommendations.map PyVal.str))] =
          entChecklistFlags r
    rw [isFilled_dict_map, isFilled_entFitDict, isFilled_list_map,
      isFilled_list_map, isFilled_str_eq, isFilled_insightsVal,
      isFilled_list_map]
    rfl
  have hc : filledCount (entEvalDict r) =
      (entChecklistFlags r).countP (fun b => b) := by
    rw [filledCount, ← hmap, List.countP_map]
    rfl
  rw [calculate_completeness, claimedEntCompleteness, hc]
  norm_num [completeness_fields]

theorem completeness_mentorEvalDict (r : MentorEvalResult) :
    calculate_completeness (mentorEvalDict r) =
      round1 (((mentorCodeFlags r).countP (fun b => b) : ℚ) / 7 * 100) := by
  have hmap : completeness_fields.map (fun f =>
      match pyLookup (mentorEvalDict r) f with
      | Option.some v => isFilled v
      | Option.none => false) =
      [decide (r.dimension_scores ≠ []), false, false, false, false,
       decide (r.detailed_insights ≠ []), decide (r.recommendations ≠ [])] := by
    show [isFilled (PyVal.dict (r.dimension_scores.map
            (fun p => (p.1, PyVal.num p.2)))),
          false, false, false, false,
          isFilled (insightsVal r.detailed_insights),
          isFilled (PyVal.list (r.recommendations.map PyVal.str))] = _
    rw [isFilled_dict_map, isFilled_insightsVal, isFilled_list_map]
  have h1 : completeness_fields.countP (fun f =>
      match pyLookup (mentorEvalDict r) f with
      | Option.some v => isFilled v
      | Option.none => false) =
      ([decide (r.dimension_scores ≠ []), false, false, false, false,
        decide (r.detailed_insights ≠ []),
        decide (r.recommendations ≠ [])]).countP (fun b => b) := by
    rw [← hmap, List.countP_map]
    rfl
  have hc : filledCount (mentorEvalDict r) =
      (mentorCodeFlags r).countP (fun b => b) := by
    rw [filledCount, h1, countP_skip_falses]
    rfl
  rw [calculate_completeness, hc]
  norm_num [completeness_fields]

theorem ent_fold_preserves :
    ∀ (updates : List (EntEvalResult × String)) (db : DB) (uid : String)
      (p0 : EntProfile), db.entrepreneur_profiles uid = Option.some p0 →
      ((updates.foldl (fun d u =>
          (create_entrepreneur_profile d uid u.1 u.2).2) db).entrepreneur_profiles
        uid).map (fun p => (p.created_at, p.validation_history)) =
        Option.some (p0.created_at, p0.validation_history) := by
  intro updates
  induction updates with
  | nil =>
    intro db uid p0 h
    simp [h]
  | cons u us ih =>
    intro db uid p0 h
    rw [List.foldl_cons]
    have h1 : ((create_entrepreneur_profile db uid u.1 u.2).2).entrepreneur_profiles
        uid = Option.some (create_entrepreneur_profile db uid u.1 u.2).1 := by
      simp [create_entrepreneur_profile, h]
    have h2 : (create_entrepreneur_profile db uid u.1 u.2).1.created_at =
        p0.created_at := by
      simp [create_entrepreneur_profile, h]
    have h3 : (create_entrepreneur_profile db uid u.1 u.2).1.validation_history =
        p0.validation_history := by
      simp [create_entrepreneur_profile, h]
    rw [ih _ uid _ h1, h2, h3]

theorem mentor_fold_preserves :
    ∀ (updates : List (MentorEvalResult × String)) (db : DB) (uid : String)
      (p0 : MentorProfile), db.mentor_profiles uid = Option.some p0 →
      ((updates.foldl (fun d u =>
          (create_mentor_profile d uid u.1 u.2).2) db).mentor_profiles
        uid).map (fun p => (p.created_at, p.mentoring_history)) =
        Option.some (p0.created_at, p0.mentoring_history) := by
  intro updates
  induction updates with
  | nil =>
    intro db uid p0 h
    simp [h]
  | cons u us ih =>
    intro db uid p0 h
    rw [List.foldl_cons]
    have h1 : ((create_mentor_profile db uid u.1 u.2).2).mentor_profiles
        uid = Option.some (create_mentor_profile db uid u.1 u.2).1 := by
      simp [create_mentor_profile, h]
    have h2 : (create_mentor_profile db uid u.1 u.2).1.created_at =
        p0.created_at := by
      simp [create_mentor_profile, h]
    have h3 : (create_mentor_profile db uid u.1 u.2).1.mentoring_history =
        p0.mentoring_history := by
      simp [create_mentor_profile, h]
    rw [ih _ uid _ h1, h2, h3]

theorem mentorWeight_of_mem {d : String} {w : ℚ}
    (h : (d, w) ∈ mentorDimensions) : mentorWeight d = w := by
  fin_cases h <;> rfl

/-! ## Claim theorems -/

/-- Claim C8: an evaluate call with an empty response set fails with the
input error `"No responses provided for evaluation"` before any score
computation, on both the entrepreneur and the mentor path; no Evaluation is
produced. -/
theorem claim_C8 (analyzer : Option EntAnalysis)
    (manalyzer : Option MentorAnalysis) (qd : QuestionsData) (t : String) :
    entEvaluate analyzer qd [] t =
      Except.error "No responses provided for evaluation" ∧
    mentorEvaluate manalyzer qd [] t =
      Except.error "No responses provided for evaluation" :=
  ⟨rfl, rfl⟩

/-- Claim C9: projecting the validation context for a user with no stored
entrepreneur profile returns the `has_profile = false` sentinel dict (with
a message), not an error. -/
theorem claim_C9 (db : DB) (uid : String)
    (h : db.entrepreneur_profiles uid = Option.none) :
    get_personalized_validation_context db uid =
      [("has_profile", PyVal.boolean false),
       ("message", PyVal.str
         "No psychometric profile available. Standard validation will be performed.")] := by
  simp [get_personalized_validation_context, get_profile_entrepreneur, h]

/-- Witness for C9 at a concrete empty store. -/
theorem claim_C9_witness :
    get_personalized_validation_context emptyDB "nobody" =
      [("has_profile", PyVal.boolean false),
       ("message", PyVal.str
         "No psychometric profile available. Standard validation will be performed.")] :=
  claim_C9 emptyDB "nobody" rfl

/-- Claim C1 (counterexample): on the entrepreneur path, when the analyzer
collaborator throws, the evaluation is returned with fallback fit category
`"Medium"` — not `"Moderate"` as the claim states for both paths. -/
theorem claim_C1_counterexample :
    (entEvaluate Option.none demoEntAssessment [("q1", "A")] "t").map
      (fun r => r.entrepreneurial_fit.overall_fit) = Except.ok "Medium" ∧
    ("Medium" : String) ≠ "Moderate" :=
  ⟨rfl, by decide⟩

/-- Claim C1 (amended): for every evaluate call in which the qualitative
analyzer throws, the Evaluation is still returned (not aborted) with the
documented neutral fallback qualitative fields; the fallback fit category
is `"Medium"` on the entrepreneur path and `"Moderate"` on the mentor
path. -/
theorem claim_C1_amended (qd : QuestionsData) (rs : List (String × String))
    (t : String) (h : rs ≠ []) :
    (entEvaluate Option.none qd rs t).map
      (fun r => (r.strengths, r.areas_for_development,
        r.entrepreneurial_fit, r.recommendations)) =
      Except.ok (["Assessment completed successfully"],
        ["Review detailed scores for specific insights"],
        ⟨"Medium", 70,
          "Assessment completed. Individual results vary by dimension.",
          "Entrepreneur", "Versatile"⟩,
        ["Review dimension scores in detail",
         "Focus on top 2-3 development areas",
         "Consider coaching for targeted growth"]) ∧
    (mentorEvaluate Option.none qd rs t).map
      (fun r => (r.mentor_strengths, r.development_areas, r.mentoring_fit,
        r.teaching_style, r.mentoring_capacity, r.expertise_domains,
        r.recommendations)) =
      Except.ok (["Assessment completed successfully"],
        ["Review detailed scores for specific insights"],
        ⟨"Moderate", 70,
          "Assessment completed. Individual results vary by dimension.",
          "Needs Development"⟩,
        "Mixed approach", "3-5 mentees", ["To be determined"],
        ["Review dimension scores in detail",
         "Clarify time commitment capacity",
         "Identify primary expertise domains"]) := by
  constructor
  · simp [entEvaluate, h, Except.map, generate_ai_analysis,
      entFallbackAnalysis]
  · simp [mentorEvaluate, h, Except.map, generate_mentor_analysis,
      mentorFallbackAnalysis]

/-- Witness for the amended C1 at a concrete assessment and response set. -/
theorem claim_C1_witness :
    (entEvaluate Option.none demoEntAssessment [("q1", "A")] "t").map
      (fun r => (r.strengths, r.areas_for_development,
        r.entrepreneurial_fit, r.recommendations)) =
      Except.ok (["Assessment completed successfully"],
        ["Review detailed scores for specific insights"],
        ⟨"Medium", 70,
          "Assessment completed. Individual results vary by dimension.",
          "Entrepreneur", "Versatile"⟩,
        ["Review dimension scores in detail",
         "Focus on top 2-3 development areas",
         "Consider coaching for targeted growth"]) :=
  (claim_C1_amended demoEntAssessment [("q1", "A")] "t" (by decide)).1

/-- Claim C10: on the mentor path a dimension score can exceed 10 — with
the empathy weight 1.3 and a single selected raw score of 10, the stored
dimension score is `round(10 * 1.3, 2) = 13.0 > 10`; weighted scores are
not clamped to the 0-10 scale. -/
theorem claim_C10 :
    (mentorEvaluate Option.none demoMentorAssessment [("m1", "A")] "t").map
      (fun r => lookupScore r.dimension_scores "empathy") = Except.ok 13 ∧
    mentorWeight "empathy" = 1.3 ∧ (1 : ℚ) < 1.3 ∧ (10 : ℚ) < 13 := by
  refine ⟨?_, rfl, by norm_num, by norm_num⟩
  have hres : (mentorEvaluate Option.none demoMentorAssessment
      [("m1", "A")] "t").map (fun r => lookupScore r.dimension_scores "empathy") =
      Except.ok (lookupScore (mentorDimensionAverages
        (collectScores mentorDimensionKeys demoMentorAssessment.questions
          [("m1", "A")]).dims) "empathy") := rfl
  have hdims : (collectScores mentorDimensionKeys
      demoMentorAssessment.questions [("m1", "A")]).dims =
      [("coaching_ability", []), ("domain_expertise", []),
       ("empathy", [10]), ("experience_breadth", []),
       ("network_strength", []), ("feedback_quality", []),
       ("availability", []), ("communication", []), ("adaptability", []),
       ("accountability", [])] := by decide
  rw [hres, hdims]
  have hfind : ([("coaching_ability", ([] : List ℚ)), ("domain_expertise", []),
       ("empathy", [10]), ("experience_breadth", []),
       ("network_strength", []), ("feedback_quality", []),
       ("availability", []), ("communication", []), ("adaptability", []),
       ("accountability", [])]).find? (fun p => p.1 = "empathy") =
      Option.some ("empathy", [10]) := by decide
  rw [mentorDimensionAverages, lookupScore_map_pair _
    (fun d v => if v = [] then 0 else round2 (v.sum / v.length * mentorWeight d)),
    hfind]
  have hw : mentorWeight "empathy" = 1.3 := rfl
  simp only [Option.map, Option.getD, hw]
  norm_num [round2, roundHalfEven]

/-- Claim C7: a response entry whose question id matches no question, or
whose option id matches no option of the matched question, is skipped
without an error: the scoring state (raw score lists and answered details)
is the same as if the entry were absent, and — as long as at least one
other response remains — the whole evaluate result (hence
`questions_answered` and `completion_rate`) is unchanged on both paths. -/
theorem claim_C7 (qd : QuestionsData) (rs₁ rs₂ : List (String × String))
    (qid oid : String) (dimKeys : List String)
    (analyzer : Option EntAnalysis) (manalyzer : Option MentorAnalysis)
    (t : String)
    (hbad : lookupQuestion qd.questions qid = Option.none ∨
      ∃ q, lookupQuestion qd.questions qid = Option.some q ∧
        findOption q oid = Option.none)
    (hne : rs₁ ++ rs₂ ≠ []) :
    collectScores dimKeys qd.questions (rs₁ ++ (qid, oid) :: rs₂) =
      collectScores dimKeys qd.questions (rs₁ ++ rs₂) ∧
    entEvaluate analyzer qd (rs₁ ++ (qid, oid) :: rs₂) t =
      entEvaluate analyzer qd (rs₁ ++ rs₂) t ∧
    mentorEvaluate manalyzer qd (rs₁ ++ (qid, oid) :: rs₂) t =
      mentorEvaluate manalyzer qd (rs₁ ++ rs₂) t := by
  have hstep : ∀ st, stepResponse qd.questions st (qid, oid) = st := by
    intro st
    rcases hbad with h | ⟨q, hq, ho⟩
    · simp [stepResponse, h]
    · simp [stepResponse, hq, ho]
  have hcol : ∀ k, collectScores k qd.questions (rs₁ ++ (qid, oid) :: rs₂) =
      collectScores k qd.questions (rs₁ ++ rs₂) := by
    intro k
    unfold collectScores
    rw [List.foldl_append, List.foldl_append, List.foldl_cons, hstep]
  have hne2 : rs₁ ++ (qid, oid) :: rs₂ ≠ [] := by simp
  refine ⟨hcol dimKeys, ?_, ?_⟩
  · simp only [entEvaluate, if_neg hne, if_neg hne2, hcol]
  · simp only [mentorEvaluate, if_neg hne, if_neg hne2, hcol]

/-- Witness for C7: `"q99"` matches no question of the demo assessment. -/
theorem claim_C7_witness :
    collectScores entDimensionKeys demoEntAssessment.questions
      ([("q1", "A")] ++ ("q99", "A") :: []) =
      collectScores entDimensionKeys demoEntAssessment.questions
        ([("q1", "A")] ++ []) ∧
    entEvaluate Option.none demoEntAssessment
      ([("q1", "A")] ++ ("q99", "A") :: []) "t" =
      entEvaluate Option.none demoEntAssessment ([("q1", "A")] ++ []) "t" :=
  ⟨(claim_C7 demoEntAssessment [("q1", "A")] [] "q99" "A" entDimensionKeys
      Option.none Option.none "t" (Or.inl (by decide)) (by decide)).1,
   (claim_C7 demoEntAssessment [("q1", "A")] [] "q99" "A" entDimensionKeys
      Option.none Option.none "t" (Or.inl (by decide)) (by decide)).2.1⟩

/-- Claim C3: for every registry dimension, the score stored in the
evaluation equals `round(mean(raw_scores) * weight, 2)` when that
dimension's raw list is non-empty (weight 1 on the entrepreneur side, the
registry weight on the mentor side), and exactly `0.0` when it is empty. -/
theorem claim_C3 (analyzer : Option EntAnalysis)
    (manalyzer : Option MentorAnalysis) (qd : QuestionsData)
    (rs : List (String × String)) (t : String) (d dm : String) (w : ℚ)
    (h : rs ≠ []) (_hd : d ∈ entDimensionKeys)
    (hw : (dm, w) ∈ mentorDimensions) :
    (entEvaluate analyzer qd rs t).map
      (fun r => lookupScore r.dimension_scores d) =
      Except.ok (if rawScores entDimensionKeys qd rs d = [] then 0
        else round2 ((rawScores entDimensionKeys qd rs d).sum /
          (rawScores entDimensionKeys qd rs d).length * 1)) ∧
    (mentorEvaluate manalyzer qd rs t).map
      (fun r => lookupScore r.dimension_scores dm) =
      Except.ok (if rawScores mentorDimensionKeys qd rs dm = [] then 0
        else round2 ((rawScores mentorDimensionKeys qd rs dm).sum /
          (rawScores mentorDimensionKeys qd rs dm).length * w)) := by
  constructor
  · have h1 : (entEvaluate analyzer qd rs t).map
        (fun r => lookupScore r.dimension_scores d) =
        Except.ok (lookupScore (entDimensionAverages
          (collectScores entDimensionKeys qd.questions rs).dims) d) := by
      simp only [entEvaluate, if_neg h, Except.map]
    rw [h1, entDimensionAverages, lookupScore_map_pair _
      (fun a v => if v = [] then 0 else round2 (v.sum / v.length))]
    cases hf : (collectScores entDimensionKeys qd.questions rs).dims.find?
        (fun p => p.1 = d) with
    | none => simp [rawScores, hf]
    | some p => simp [rawScores, hf, mul_one]
  · have h1 : (mentorEvaluate manalyzer qd rs t).map
        (fun r => lookupScore r.dimension_scores dm) =
        Except.ok (lookupScore (mentorDimensionAverages
          (collectScores mentorDimensionKeys qd.questions rs).dims) dm) := by
      simp only [mentorEvaluate, if_neg h, Except.map]
    rw [h1, mentorDimensionAverages, lookupScore_map_pair _
      (fun a v => if v = [] then 0 else round2 (v.sum / v.length * mentorWeight a))]
    cases hf : (collectScores mentorDimensionKeys qd.questions rs).dims.find?
        (fun p => p.1 = dm) with
    | none => simp [rawScores, hf]
    | some p =>
      have hp : p.1 = dm := find?_key_eq hf
      have hwd : mentorWeight p.1 = w := by rw [hp]; exact mentorWeight_of_mem hw
      simp [rawScores, hf, hwd]

/-- Witness for C3 at a concrete assessment, response set and dimensions
(`leadership` on the entrepreneur side, `empathy`, weight 1.3, on the
mentor side). -/
theorem claim_C3_witness :
    (entEvaluate Option.none demoEntAssessment [("q1", "A")] "t").map
      (fun r => lookupScore r.dimension_scores "leadership") =
      Except.ok (if rawScores entDimensionKeys demoEntAssessment
          [("q1", "A")] "leadership" = [] then 0
        else round2 ((rawScores entDimensionKeys demoEntAssessment
            [("q1", "A")] "leadership").sum /
          (rawScores entDimensionKeys demoEntAssessment
            [("q1", "A")] "leadership").length * 1)) ∧
    (mentorEvaluate Option.none demoEntAssessment [("q1", "A")] "t").map
      (fun r => lookupScore r.dimension_scores "empathy") =
      Except.ok (if rawScores mentorDimensionKeys demoEntAssessment
          [("q1", "A")] "empathy" = [] then 0
        else round2 ((rawScores mentorDimensionKeys demoEntAssessment
            [("q1", "A")] "empathy").sum /
          (rawScores mentorDimensionKeys demoEntAssessment
            [("q1", "A")] "empathy").length * 1.3)) :=
  claim_C3 Option.none Option.none demoEntAssessment [("q1", "A")] "t"
    "leadership" "empathy" 1.3 (by decide) (by decide)
    (List.mem_cons_of_mem _ (List.mem_cons_of_mem _ (List.mem_cons_self _ _)))

theorem entAverages_fst (qd : QuestionsData) (rs : List (String × String)) :
    (entAverages qd rs).map Prod.fst = entDimensionKeys := by
  rw [entAverages, entDimensionAverages, map_pair_fst _
    (fun a v => if v = [] then 0 else round2 (v.sum / v.length)),
    collectScores_fst]

theorem mentorAverages_fst (qd : QuestionsData) (rs : List (String × String)) :
    (mentorAverages qd rs).map Prod.fst = mentorDimensionKeys := by
  rw [mentorAverages, mentorDimensionAverages, map_pair_fst _
    (fun a v => if v = [] then 0 else round2 (v.sum / v.length * mentorWeight a)),
    collectScores_fst]

/-- Claim C4: the overall score is the sum of all (weighted) dimension
scores divided by the sum of the weights of every registry dimension — not
only the answered ones — rounded to 2 decimals.  The registries are fixed
and their weight sums positive, so the zero-registry guard (`0.0`) never
fires. -/
theorem claim_C4 (analyzer : Option EntAnalysis)
    (manalyzer : Option MentorAnalysis) (qd : QuestionsData)
    (rs : List (String × String)) (t : String) (h : rs ≠ []) :
    (entEvaluate analyzer qd rs t).map
      (fun r => (r.overall_score, r.dimension_scores)) =
      Except.ok (round2 (((entAverages qd rs).map Prod.snd).sum /
        entRegistryWeightSum), entAverages qd rs) ∧
    (mentorEvaluate manalyzer qd rs t).map
      (fun r => (r.overall_mentor_score, r.dimension_scores)) =
      Except.ok (round2 (((mentorAverages qd rs).map Prod.snd).sum /
        mentorRegistryWeightSum), mentorAverages qd rs) ∧
    0 < entRegistryWeightSum ∧ 0 < mentorRegistryWeightSum := by
  have hlenE : (entAverages qd rs).length = 10 := by
    have := congrArg List.length (entAverages_fst qd rs)
    simpa using this
  have hneE : entAverages qd rs ≠ [] := by
    intro h0
    rw [h0] at hlenE
    simp at hlenE
  have hlenM : (mentorAverages qd rs).length = 10 := by
    have := congrArg List.length (mentorAverages_fst qd rs)
    simpa using this
  have hneM : mentorAverages qd rs ≠ [] := by
    intro h0
    rw [h0] at hlenM
    simp at hlenM
  have htw : mentorTotalWeight (mentorAverages qd rs) =
      mentorRegistryWeightSum := by
    rw [mentorTotalWeight]
    have hmm : (mentorAverages qd rs).map (fun p => mentorWeight p.1) =
        ((mentorAverages qd rs).map Prod.fst).map mentorWeight := by
      rw [List.map_map]
      rfl
    rw [hmm, mentorAverages_fst]
    rfl
  have hposM : 0 < mentorRegistryWeightSum := by
    norm_num [mentorRegistryWeightSum, mentorDimensions]
  refine ⟨?_, ?_, by norm_num [entRegistryWeightSum, entDimensionKeys], hposM⟩
  · have h1 : (entEvaluate analyzer qd rs t).map
        (fun r => (r.overall_score, r.dimension_scores)) =
        Except.ok (entOverallScore (entAverages qd rs), entAverages qd rs) := by
      simp only [entEvaluate, if_neg h, Except.map, entAverages]
    rw [h1, entOverallScore, if_neg hneE, hlenE]
    have h10 : entRegistryWeightSum = ((10 : ℕ) : ℚ) := by
      norm_num [entRegistryWeightSum, entDimensionKeys]
    rw [h10]
  · have h1 : (mentorEvaluate manalyzer qd rs t).map
        (fun r => (r.overall_mentor_score, r.dimension_scores)) =
        Except.ok (mentorOverallScore (mentorAverages qd rs),
          mentorAverages qd rs) := by
      simp only [mentorEvaluate, if_neg h, Except.map, mentorAverages]
    rw [h1, mentorOverallScore, htw, if_pos ⟨hneM, hposM⟩]

/-- Witness for C4 at a concrete assessment and response set. -/
theorem claim_C4_witness :
    (entEvaluate Option.none demoEntAssessment [("q1", "A")] "t").map
      (fun r => (r.overall_score, r.dimension_scores)) =
      Except.ok (round2 (((entAverages demoEntAssessment [("q1", "A")]).map
        Prod.snd).sum / entRegistryWeightSum),
        entAverages demoEntAssessment [("q1", "A")]) ∧
    0 < entRegistryWeightSum :=
  ⟨(claim_C4 Option.none Option.none demoEntAssessment [("q1", "A")] "t"
      (by decide)).1,
   (claim_C4 Option.none Option.none demoEntAssessment [("q1", "A")] "t"
      (by decide)).2.2.1⟩

/-- `completion_rate` bound: rounding `a / max(total, 1) * 100` to one
decimal stays within `[0, 100]` whenever `a ≤ total`. -/
theorem completion_rate_bounds (a total : Nat) (ha : a ≤ total) :
    0 ≤ round1 ((a : ℚ) / (max total 1 : ℕ) * 100) ∧
    round1 ((a : ℚ) / (max total 1 : ℕ) * 100) ≤ 100 := by
  have hm1 : (1 : ℚ) ≤ ((max total 1 : ℕ) : ℚ) := by
    exact_mod_cast Nat.le_max_right total 1
  have hm0 : (0 : ℚ) < ((max total 1 : ℕ) : ℚ) := by linarith
  have ham : (a : ℚ) ≤ ((max total 1 : ℕ) : ℚ) := by
    exact_mod_cast le_trans ha (Nat.le_max_left total 1)
  have hx0 : 0 ≤ (a : ℚ) / ((max total 1 : ℕ) : ℚ) * 100 := by positivity
  have hx1 : (a : ℚ) / ((max total 1 : ℕ) : ℚ) * 100 ≤ 100 := by
    have hdiv : (a : ℚ) / ((max total 1 : ℕ) : ℚ) ≤ 1 := by
      rw [div_le_one hm0]
      exact ham
    nlinarith
  exact ⟨round1_nonneg _ hx0, round1_le_100 _ hx1⟩

/-- Claim C6: `completion_rate` equals answered-count divided by
`max(total, 1)` times 100 rounded to 1 decimal, and — for response dicts
(one option per question id) — always lies in `[0, 100]`; the `max`
guard rules out division by zero even on an empty assessment. -/
theorem claim_C6 (analyzer : Option EntAnalysis)
    (manalyzer : Option MentorAnalysis) (qd : QuestionsData)
    (rs : List (String × String)) (t : String)
    (hnd : (rs.map Prod.fst).Nodup) (h : rs ≠ []) :
    (entEvaluate analyzer qd rs t).map
      (fun r => (r.completion_rate, r.questions_answered, r.total_questions)) =
      Except.ok (round1 ((answeredCount entDimensionKeys qd rs : ℚ) /
          (max (questionMapSize qd.questions) 1 : ℕ) * 100),
        answeredCount entDimensionKeys qd rs, questionMapSize qd.questions) ∧
    (mentorEvaluate manalyzer qd rs t).map
      (fun r => (r.completion_rate, r.questions_answered, r.total_questions)) =
      Except.ok (round1 ((answeredCount mentorDimensionKeys qd rs : ℚ) /
          (max (questionMapSize qd.questions) 1 : ℕ) * 100),
        answeredCount mentorDimensionKeys qd rs, questionMapSize qd.questions) ∧
    (0 ≤ round1 ((answeredCount entDimensionKeys qd rs : ℚ) /
        (max (questionMapSize qd.questions) 1 : ℕ) * 100) ∧
      round1 ((answeredCount entDimensionKeys qd rs : ℚ) /
        (max (questionMapSize qd.questions) 1 : ℕ) * 100) ≤ 100) ∧
    (0 ≤ round1 ((answeredCount mentorDimensionKeys qd rs : ℚ) /
        (max (questionMapSize qd.questions) 1 : ℕ) * 100) ∧
      round1 ((answeredCount mentorDimensionKeys qd rs : ℚ) /
        (max (questionMapSize qd.questions) 1 : ℕ) * 100) ≤ 100) := by
  refine ⟨?_, ?_, ?_, ?_⟩
  · simp only [entEvaluate, if_neg h, Except.map, answeredCount]
  · simp only [mentorEvaluate, if_neg h, Except.map, answeredCount]
  · exact completion_rate_bounds _ _
      (answered_le_mapSize entDimensionKeys qd.questions rs hnd)
  · exact completion_rate_bounds _ _
      (answered_le_mapSize mentorDimensionKeys qd.questions rs hnd)

/-- Witness for C6 at a concrete assessment and two-answer response set. -/
theorem claim_C6_witness :
    (entEvaluate Option.none demoEntAssessment [("q1", "A"), ("q2", "B")]
      "t").map
      (fun r => (r.completion_rate, r.questions_answered, r.total_questions)) =
      Except.ok (round1 ((answeredCount entDimensionKeys demoEntAssessment
          [("q1", "A"), ("q2", "B")] : ℚ) /
          (max (questionMapSize demoEntAssessment.questions) 1 : ℕ) * 100),
        answeredCount entDimensionKeys demoEntAssessment
          [("q1", "A"), ("q2", "B")],
        questionMapSize demoEntAssessment.questions) ∧
    0 ≤ round1 ((answeredCount entDimensionKeys demoEntAssessment
        [("q1", "A"), ("q2", "B")] : ℚ) /
        (max (questionMapSize demoEntAssessment.questions) 1 : ℕ) * 100) :=
  ⟨(claim_C6 Option.none Option.none demoEntAssessment
      [("q1", "A"), ("q2", "B")] "t" (by decide) (by decide)).1,
   (claim_C6 Option.none Option.none demoEntAssessment
      [("q1", "A"), ("q2", "B")] "t" (by decide) (by decide)).2.2.1.1⟩

/-- Claim C2 (counterexample): a fully-populated mentor evaluation result
— every checklist item non-empty in the mentor vocabulary — gets
`profile_completeness` 42.9, not the 100.0 the claimed per-vocabulary
checklist yields: the code probes the entrepreneur key names on mentor
results too. -/
theorem claim_C2_counterexample :
    calculate_completeness (mentorEvalDict demoMentorEval) = 429 / 10 ∧
    claimedMentorCompleteness demoMentorEval = 100 ∧
    calculate_completeness (mentorEvalDict demoMentorEval) ≠
      claimedMentorCompleteness demoMentorEval := by
  have h1 : calculate_completeness (mentorEvalDict demoMentorEval) =
      429 / 10 := by
    have hc : filledCount (mentorEvalDict demoMentorEval) = 3 := by decide
    rw [calculate_completeness, hc]
    norm_num [completeness_fields, round1, roundHalfEven]
  have h2 : claimedMentorCompleteness demoMentorEval = 100 := by
    have hf : (mentorChecklistFlags demoMentorEval).countP (fun b => b) = 7 :=
      by decide
    rw [claimedMentorCompleteness, hf]
    norm_num [round1, roundHalfEven]
  refine ⟨h1, h2, ?_⟩
  rw [h1, h2]
  norm_num

/-- Claim C2 (amended): both profile types run the same completeness code
over the same fixed entrepreneur-keyed checklist.  On an entrepreneur
evaluation result this matches the claimed formula (percentage of the
7 checklist fields that are non-empty, rounded to 1 decimal).  On a mentor
evaluation result the four mentor-vocabulary fields are never examined —
only `dimension_scores`, `detailed_insights` and `recommendations` can
count, so mentor completeness is at most `3/7`, i.e. 42.9. -/
theorem claim_C2_amended (db : DB) (uid now : String) (r : EntEvalResult)
    (m : MentorEvalResult) :
    (create_entrepreneur_profile db uid r now).1.profile_completeness =
      claimedEntCompleteness r ∧
    (create_mentor_profile db uid m now).1.profile_completeness =
      round1 (((mentorCodeFlags m).countP (fun b => b) : ℚ) / 7 * 100) := by
  constructor
  · have h1 : (create_entrepreneur_profile db uid r now).1.profile_completeness =
        calculate_completeness (entEvalDict r) := by
      cases hdb : db.entrepreneur_profiles uid <;>
        simp [create_entrepreneur_profile, hdb]
    rw [h1, completeness_entEvalDict]
  · have h1 : (create_mentor_profile db uid m now).1.profile_completeness =
        calculate_completeness (mentorEvalDict m) := by
      cases hdb : db.mentor_profiles uid <;>
        simp [create_mentor_profile, hdb]
    rw [h1, completeness_mentorEvalDict]

/-- Claim C5: updating an existing `(user_id, profile_type)` record
preserves `created_at` and the full history sequence, overwrites every
derived scoring/qualitative field with the new Evaluation's values, sets
`last_updated` to the write time, and stores exactly the returned profile;
the `created_at`/history preservation holds across any number of
sequential updates, on both the entrepreneur and the mentor path. -/
theorem claim_C5 (db : DB) (uidE uidM : String) (pE : EntProfile)
    (pM : MentorProfile) (ev : EntEvalResult) (mev : MentorEvalResult)
    (now : String) (updatesE : List (EntEvalResult × String))
    (updatesM : List (MentorEvalResult × String))
    (hE : db.entrepreneur_profiles uidE = Option.some pE)
    (hM : db.mentor_profiles uidM = Option.some pM) :
    ((create_entrepreneur_profile db uidE ev now).1.created_at =
        pE.created_at ∧
      (create_entrepreneur_profile db uidE ev now).1.validation_history =
        pE.validation_history ∧
      (create_entrepreneur_profile db uidE ev now).1.last_updated = now ∧
      (create_entrepreneur_profile db uidE ev now).1.psychometric_scores =
        ev.dimension_scores ∧
      (create_entrepreneur_profile db uidE ev now).1.overall_psychometric_score =
        ev.overall_score ∧
      (create_entrepreneur_profile db uidE ev now).1.top_strengths =
        ev.strengths.take 5 ∧
      (create_entrepreneur_profile db uidE ev now).1.development_areas =
        ev.areas_for_development.take 5 ∧
      (create_entrepreneur_profile db uidE ev now).1.personality_profile =
        ev.personality_profile ∧
      (create_entrepreneur_profile db uidE ev now).1.entrepreneurial_fit =
        ev.entrepreneurial_fit.overall_fit ∧
      (create_entrepreneur_profile db uidE ev now).1.recommendations =
        ev.recommendations ∧
      (create_entrepreneur_profile db uidE ev now).2.entrepreneur_profiles
        uidE = Option.some (create_entrepreneur_profile db uidE ev now).1) ∧
    ((updatesE.foldl (fun d u =>
        (create_entrepreneur_profile d uidE u.1 u.2).2) db).entrepreneur_profiles
      uidE).map (fun p => (p.created_at, p.validation_history)) =
      Option.some (pE.created_at, pE.validation_history) ∧
    ((create_mentor_profile db uidM mev now).1.created_at = pM.created_at ∧
      (create_mentor_profile db uidM mev now).1.mentoring_history =
        pM.mentoring_history ∧
      (create_mentor_profile db uidM mev now).1.last_updated = now ∧
      (create_mentor_profile db uidM mev now).1.psychometric_scores =
        mev.dimension_scores ∧
      (create_mentor_profile db uidM mev now).1.overall_mentor_score =
        mev.overall_mentor_score ∧
      (create_mentor_profile db uidM mev now).1.top_strengths =
        mev.mentor_strengths.take 5 ∧
      (create_mentor_profile db uidM mev now).1.development_areas =
        mev.development_areas.take 5 ∧
      (create_mentor_profile db uidM mev now).1.mentoring_fit =
        mev.mentoring_fit.overall_fit ∧
      (create_mentor_profile db uidM mev now).1.recommendations =
        mev.recommendations ∧
      (create_mentor_profile db uidM mev now).2.mentor_profiles uidM =
        Option.some (create_mentor_profile db uidM mev now).1) ∧
    ((updatesM.foldl (fun d u =>
        (create_mentor_profile d uidM u.1 u.2).2) db).mentor_profiles
      uidM).map (fun p => (p.created_at, p.mentoring_history)) =
      Option.some (pM.created_at, pM.mentoring_history) := by
  refine ⟨?_, ent_fold_preserves updatesE db uidE pE hE, ?_,
    mentor_fold_preserves updatesM db uidM pM hM⟩
  · simp [create_entrepreneur_profile, hE]
  · simp [create_mentor_profile, hM]

/-- Witness for C5: one update plus a two-update fold over a store holding
the demo profiles. -/
theorem claim_C5_witness :
    (create_entrepreneur_profile demoDB "u1" demoEntEval "T2").1.created_at =
      "T0" ∧
    (create_entrepreneur_profile demoDB "u1" demoEntEval "T2").1.validation_history =
      [⟨"idea1", "rep1", "T0v", 7, "validated"⟩] ∧
    (create_entrepreneur_profile demoDB "u1" demoEntEval "T2").1.last_updated =
      "T2" ∧
    ((([(demoEntEval, "T2"), (demoEntEval, "T3")]).foldl (fun d u =>
        (create_entrepreneur_profile d "u1" u.1 u.2).2)
      demoDB).entrepreneur_profiles "u1").map
      (fun p => (p.created_at, p.validation_history)) =
      Option.some ("T0", [⟨"idea1", "rep1", "T0v", 7, "validated"⟩]) ∧
    (create_mentor_profile demoDB "m1" demoMentorEval "T2").1.created_at =
      "S0" := by
  have h := claim_C5 demoDB "u1" "m1" demoEntProfile demoMentorProfile
    demoEntEval demoMentorEval "T2" [(demoEntEval, "T2"), (demoEntEval, "T3")]
    [(demoMentorEval, "T2")] rfl rfl
  obtain ⟨⟨e1, e2, e3, _⟩, hfold, ⟨m1, _⟩, _⟩ := h
  exact ⟨e1.trans rfl, e2.trans rfl, e3, hfold.trans rfl, m1.trans rfl⟩

end Pragati
